import Mathlib

/-!
Verification of the state-change notification path of the `mpd_client` crate
(`src/mpd_client/src/state_changes.rs`): the `Subsystem` classifier, the
`StateChanges` stream over an unbounded channel, and the `StateChangeError`
sum type with its display and cause-chain behaviour.
-/

namespace MpdClient

/-- The `Subsystem` enumeration from `state_changes.rs`: the thirteen named
subsystems plus `Queue` (called `playlist` in the protocol) and the catch-all
`Other` variant holding the raw subsystem token. -/
inductive Subsystem where
  | Database
  | Message
  | Mixer
  | Options
  | Output
  | Partition
  | Player
  | Queue
  | Sticker
  | StoredPlaylist
  | Subscription
  | Update
  | Neighbor
  | Mount
  | Other (raw : String)
deriving DecidableEq, Repr

/-- `Subsystem::from_raw_string`: exact, byte-for-byte match of the raw token
against the fourteen recognized protocol tokens, falling through to
`Other(raw)`. A Rust `match` on string literals is a sequence of exact
equality tests, embedded here as an if-chain. -/
def Subsystem.from_raw_string (raw : String) : Subsystem :=
  if raw = "database" then .Database
  else if raw = "message" then .Message
  else if raw = "mixer" then .Mixer
  else if raw = "options" then .Options
  else if raw = "output" then .Output
  else if raw = "partition" then .Partition
  else if raw = "player" then .Player
  else if raw = "playlist" then .Queue
  else if raw = "sticker" then .Sticker
  else if raw = "stored_playlist" then .StoredPlaylist
  else if raw = "subscription" then .Subscription
  else if raw = "update" then .Update
  else if raw = "neighbor" then .Neighbor
  else if raw = "mount" then .Mount
  else .Other raw

/-- `Subsystem::as_str`: the raw protocol name for each variant. -/
def Subsystem.as_str : Subsystem → String
  | .Database => "database"
  | .Message => "message"
  | .Mixer => "mixer"
  | .Options => "options"
  | .Output => "output"
  | .Partition => "partition"
  | .Player => "player"
  | .Queue => "playlist"
  | .Sticker => "sticker"
  | .StoredPlaylist => "stored_playlist"
  | .Subscription => "subscription"
  | .Update => "update"
  | .Neighbor => "neighbor"
  | .Mount => "mount"
  | .Other r => r

/-- The fourteen protocol tokens recognized by `from_raw_string`, in the order
of the `match` arms in the source. -/
def recognizedTokens : List String :=
  ["database", "message", "mixer", "options", "output", "partition", "player",
   "playlist", "sticker", "stored_playlist", "subscription", "update",
   "neighbor", "mount"]

/-- Structural equality on `Subsystem`, mirroring the derived `PartialEq` in
the source: variants compare by tag, and `Other` compares the stored token by
content. -/
def Subsystem.beq : Subsystem → Subsystem → Bool
  | .Database, .Database => true
  | .Message, .Message => true
  | .Mixer, .Mixer => true
  | .Options, .Options => true
  | .Output, .Output => true
  | .Partition, .Partition => true
  | .Player, .Player => true
  | .Queue, .Queue => true
  | .Sticker, .Sticker => true
  | .StoredPlaylist, .StoredPlaylist => true
  | .Subscription, .Subscription => true
  | .Update, .Update => true
  | .Neighbor, .Neighbor => true
  | .Mount, .Mount => true
  | .Other a, .Other b => a == b
  | _, _ => false

/-- The `mpd_protocol::MpdProtocolError` type is an external collaborator
(the transport/protocol error, carrying its own cause chain); it is modelled
abstractly as an opaque payload. Nothing in this core inspects it. -/
structure MpdProtocolError where
  description : String
deriving DecidableEq, Repr

/-- The `mpd_protocol::response::Error` frame is an external collaborator; it
carries at least a numeric `code` and a `message` string, plus further fields
the source elides with `..` in its pattern (modelled by `current_command`). -/
structure Error where
  code : Nat
  message : String
  current_command : Option String
deriving DecidableEq, Repr

/-- `StateChangeError` from `state_changes.rs`: either an underlying protocol
error (`Protocol`) or an error frame contained in a state change message
(`ErrorMessage`). -/
inductive StateChangeError where
  | Protocol (e : MpdProtocolError)
  | ErrorMessage (e : Error)
deriving DecidableEq, Repr

/-- The `fmt::Display` implementation for `StateChangeError`: the `Protocol`
variant writes the fixed literal, and `ErrorMessage` interpolates the frame's
`code` and `message` fields. -/
def StateChangeError.display : StateChangeError → String
  | .Protocol _ => "protocol error"
  | .ErrorMessage e =>
      "message contained an error frame [code " ++ toString e.code ++ "]: "
        ++ e.message

/-- The `error::Error::source` implementation for `StateChangeError`: the
`Protocol` variant exposes its wrapped error, every other variant exposes
none. -/
def StateChangeError.source : StateChangeError → Option MpdProtocolError
  | .Protocol e => some e
  | _ => none

/-- The `From Error` conversion for `StateChangeError`. -/
def StateChangeError.from_error_frame (r : Error) : StateChangeError :=
  .ErrorMessage r

/-- The `From MpdProtocolError` conversion for `StateChangeError`. -/
def StateChangeError.from_protocol_error (e : MpdProtocolError) : StateChangeError :=
  .Protocol e

/-- The element type of the notification stream:
`Result<Subsystem, StateChangeError>`. -/
abbrev Item := Except StateChangeError Subsystem

/-- The result of one poll: either ready with a value or pending, mirroring
`std::task::Poll`. -/
inductive Poll (α : Type) where
  | Ready (a : α)
  | Pending
deriving DecidableEq, Repr

/-- The consuming end of a tokio unbounded mpsc channel, modelled by its
observable state: the FIFO queue of pending elements, and whether the
producer side has closed the channel. -/
structure UnboundedReceiver (α : Type) where
  queue : List α
  closed : Bool
deriving Repr

/-- `UnboundedReceiver::poll_recv` semantics: yield the front element when one
is queued; report end of stream when the queue is empty and the channel is
closed; otherwise stay pending. The channel state is returned alongside. -/
def UnboundedReceiver.poll_recv {α} (rx : UnboundedReceiver α) :
    Poll (Option α) × UnboundedReceiver α :=
  match rx.queue with
  | a :: rest => (.Ready (some a), ⟨rest, rx.closed⟩)
  | [] => if rx.closed then (.Ready none, rx) else (.Pending, rx)

/-- `StateChanges` from `state_changes.rs`: the stream handle owning the
receiving end of the channel of classified results. -/
structure StateChanges where
  rx : UnboundedReceiver Item
deriving Repr

/-- `Stream::poll_next` for `StateChanges`: it just delegates to
`self.rx.poll_recv(cx)`. -/
def StateChanges.poll_next (s : StateChanges) :
    Poll (Option Item) × StateChanges :=
  let r := s.rx.poll_recv
  (r.1, ⟨r.2⟩)

/-- Poll the stream `n` times in sequence, collecting the `n` poll outcomes
in order together with the final stream state. -/
def StateChanges.pollN (s : StateChanges) : Nat → List (Poll (Option Item)) × StateChanges
  | 0 => ([], s)
  | n + 1 =>
      let r := s.poll_next
      let rest := r.2.pollN n
      (r.1 :: rest.1, rest.2)

/-! ## Helper lemmas -/

theorem from_raw_other_of_not_mem (s : String) (h : s ∉ recognizedTokens) :
    Subsystem.from_raw_string s = .Other s := by
  simp only [recognizedTokens, List.mem_cons, List.not_mem_nil, or_false,
    not_or] at h
  obtain ⟨h1, h2, h3, h4, h5, h6, h7, h8, h9, h10, h11, h12, h13, h14⟩ := h
  simp [Subsystem.from_raw_string, h1, h2, h3, h4, h5, h6, h7, h8, h9, h10,
    h11, h12, h13, h14]

theorem subsystem_beq_refl (x : Subsystem) : x.beq x = true := by
  cases x <;> simp [Subsystem.beq]

/-! ## Claim theorems -/

/-- C1: applying `from_raw_string` and then `as_str` reproduces every one of
the fourteen recognized protocol tokens exactly; in particular `"playlist"`
classifies to `Queue` and `Queue.as_str` renders back to `"playlist"`. -/
theorem claim_c1_recognized_tokens_roundtrip :
    (∀ t ∈ recognizedTokens, (Subsystem.from_raw_string t).as_str = t) ∧
    Subsystem.from_raw_string "playlist" = Subsystem.Queue ∧
    Subsystem.Queue.as_str = "playlist" := by
  refine ⟨?_, rfl, rfl⟩
  decide

/-- C1 witness: the round trip evaluated at the concrete token
`"playlist"`. -/
theorem claim_c1_witness :
    (Subsystem.from_raw_string "playlist").as_str = "playlist" :=
  claim_c1_recognized_tokens_roundtrip.1 "playlist" (by decide)

/-- C2: `from_raw_string` is total, and every string that is not one of the
fourteen recognized tokens — including strings that merely contain a token as
a substring — classifies to `Other` holding the string unmodified, which
`as_str` renders back exactly. -/
theorem claim_c2_unrecognized_other (s : String)
    (h : s ∉ recognizedTokens) :
    Subsystem.from_raw_string s = .Other s ∧
    (Subsystem.Other s).as_str = s :=
  ⟨from_raw_other_of_not_mem s h, rfl⟩

/-- C2 witness: `"playlists"` contains the recognized token `"playlist"` as a
substring but is not an exact match, so it classifies to `Other` and renders
back unchanged. -/
theorem claim_c2_witness :
    Subsystem.from_raw_string "playlists" = .Other "playlists" ∧
    (Subsystem.Other "playlists").as_str = "playlists" :=
  claim_c2_unrecognized_other "playlists" (by decide)

/-- C8: classification is pure and deterministic — two calls of
`from_raw_string` on equal strings yield equal `Subsystem` values under the
derived structural equality, which compares `Other` by stored content. -/
theorem claim_c8_classify_deterministic (s t : String) (h : s = t) :
    Subsystem.beq (Subsystem.from_raw_string s)
      (Subsystem.from_raw_string t) = true := by
  subst h; exact subsystem_beq_refl _

/-- C8 witness: two classifications of the unrecognized string `"custom"`
compare equal by content. -/
theorem claim_c8_witness :
    Subsystem.beq (Subsystem.from_raw_string "custom")
      (Subsystem.from_raw_string "custom") = true :=
  claim_c8_classify_deterministic "custom" "custom" rfl

/-- C9: `from_raw_string` composed with `as_str` is idempotent on the image
of `from_raw_string`, but the two are not mutual inverses on all values: the
value `Other "player"` (constructible only outside `from_raw_string`) renders
to `"player"`, which classifies back to `Player`, not to `Other "player"`. -/
theorem claim_c9_classify_render_idempotent :
    (∀ r, Subsystem.from_raw_string (Subsystem.from_raw_string r).as_str =
      Subsystem.from_raw_string r) ∧
    Subsystem.from_raw_string (Subsystem.Other "player").as_str =
      Subsystem.Player ∧
    Subsystem.Other "player" ≠ Subsystem.Player := by
  refine ⟨?_, rfl, by decide⟩
  intro r
  by_cases hmem : r ∈ recognizedTokens
  · simp only [recognizedTokens, List.mem_cons, List.not_mem_nil,
      or_false] at hmem
    rcases hmem with rfl | rfl | rfl | rfl | rfl | rfl | rfl | rfl | rfl |
      rfl | rfl | rfl | rfl | rfl <;> rfl
  · rw [from_raw_other_of_not_mem r hmem]
    exact from_raw_other_of_not_mem r hmem

/-- C9 witness: the idempotence equation evaluated at the concrete
unrecognized string `"custom_token"`. -/
theorem claim_c9_witness :
    Subsystem.from_raw_string
        (Subsystem.from_raw_string "custom_token").as_str =
      Subsystem.from_raw_string "custom_token" :=
  claim_c9_classify_render_idempotent.1 "custom_token"

/-- C5: `Display` renders the `Protocol` variant as exactly the fixed literal
regardless of the wrapped cause, and renders `ErrorMessage` with the frame's
numeric code and message text inline; code 5 with message `"bad command"`
formats to a string carrying both literals. -/
theorem claim_c5_display_format :
    (∀ e, (StateChangeError.Protocol e).display = "protocol error") ∧
    (∀ c m cc, (StateChangeError.ErrorMessage ⟨c, m, cc⟩).display =
      "message contained an error frame [code " ++ toString c ++ "]: " ++ m) ∧
    (StateChangeError.ErrorMessage ⟨5, "bad command", none⟩).display =
      "message contained an error frame [code 5]: bad command" :=
  ⟨fun _ => rfl, fun _ _ _ => rfl, rfl⟩

/-- C6: the cause-chain accessor returns the wrapped underlying error for
every `Protocol` value and no cause for every `ErrorMessage` value. -/
theorem claim_c6_source_chain :
    (∀ e, (StateChangeError.Protocol e).source = some e) ∧
    (∀ f, (StateChangeError.ErrorMessage f).source = none) :=
  ⟨fun _ => rfl, fun _ => rfl⟩

/-- C7: conversion from a protocol error always constructs `Protocol`
wrapping it unchanged, conversion from an error frame always constructs
`ErrorMessage` wrapping it unchanged, and every `StateChangeError` is exactly
one of these two kinds — no third kind exists. -/
theorem claim_c7_two_error_kinds :
    (∀ e, StateChangeError.from_protocol_error e =
      StateChangeError.Protocol e) ∧
    (∀ r, StateChangeError.from_error_frame r =
      StateChangeError.ErrorMessage r) ∧
    (∀ x : StateChangeError, (∃ e, x = .Protocol e) ∨
      (∃ r, x = .ErrorMessage r)) := by
  refine ⟨fun _ => rfl, fun _ => rfl, fun x => ?_⟩
  cases x with
  | Protocol e => exact Or.inl ⟨e, rfl⟩
  | ErrorMessage r => exact Or.inr ⟨r, rfl⟩

/-! ## Stream lemmas -/

theorem pollN_drain (l : List Item) (c : Bool) :
    StateChanges.pollN ⟨⟨l, c⟩⟩ l.length =
      (l.map (fun x => Poll.Ready (some x)), ⟨⟨[], c⟩⟩) := by
  induction l with
  | nil => rfl
  | cons x xs ih =>
      simp [StateChanges.pollN, StateChanges.poll_next,
        UnboundedReceiver.poll_recv, ih]

theorem pollN_closed_empty (n : Nat) :
    StateChanges.pollN ⟨⟨[], true⟩⟩ n =
      (List.replicate n (Poll.Ready none), ⟨⟨[], true⟩⟩) := by
  induction n with
  | zero => rfl
  | succ n ih =>
      simp [StateChanges.pollN, StateChanges.poll_next,
        UnboundedReceiver.poll_recv, ih, List.replicate]

theorem pollN_add (s : StateChanges) (m n : Nat) :
    s.pollN (m + n) =
      ((s.pollN m).1 ++ ((s.pollN m).2.pollN n).1,
        ((s.pollN m).2.pollN n).2) := by
  induction m generalizing s with
  | zero => simp [StateChanges.pollN]
  | succ m ih =>
      simp only [Nat.succ_add, StateChanges.pollN, ih, List.cons_append]

/-- C3: the stream yields exactly the enqueued elements in exact order with
no reordering, loss or coalescing, followed by the end-of-stream signal; in
particular enqueuing the classified `"player"`, a protocol error and the
classified `"mixer"` then closing yields exactly
`[Ok Player, Err Protocol, Ok Mixer, end]` — the error element suppresses
nothing. -/
theorem claim_c3_stream_exact_order :
    (∀ l : List Item,
      StateChanges.pollN ⟨⟨l, true⟩⟩ (l.length + 1) =
        (l.map (fun x => Poll.Ready (some x)) ++ [Poll.Ready none],
          ⟨⟨[], true⟩⟩)) ∧
    (∀ pe : MpdProtocolError,
      StateChanges.pollN
        ⟨⟨[Except.ok (Subsystem.from_raw_string "player"),
           Except.error (StateChangeError.Protocol pe),
           Except.ok (Subsystem.from_raw_string "mixer")], true⟩⟩ 4 =
        ([Poll.Ready (some (Except.ok Subsystem.Player)),
          Poll.Ready (some (Except.error (StateChangeError.Protocol pe))),
          Poll.Ready (some (Except.ok Subsystem.Mixer)),
          Poll.Ready none], ⟨⟨[], true⟩⟩)) := by
  constructor
  · intro l
    rw [pollN_add ⟨⟨l, true⟩⟩ l.length 1, pollN_drain l true]
    rfl
  · intro pe
    rfl

/-- C4: once the channel is closed and drained, every subsequent poll of the
stream yields the end-of-stream signal, indefinitely, and the handle's state
never changes again. -/
theorem claim_c4_closed_is_terminal (s : StateChanges)
    (hq : s.rx.queue = []) (hc : s.rx.closed = true) (n : Nat) :
    s.pollN n = (List.replicate n (Poll.Ready none), s) := by
  have hs : s = ⟨⟨[], true⟩⟩ := by
    cases s with
    | mk rx => cases rx with
      | mk q c => simp_all
  rw [hs]
  exact pollN_closed_empty n

/-- C4 witness: two successive polls of a drained, closed stream both yield
the end-of-stream signal and leave the state unchanged. -/
theorem claim_c4_witness :
    StateChanges.pollN ⟨⟨[], true⟩⟩ 2 =
      ([Poll.Ready none, Poll.Ready none], ⟨⟨[], true⟩⟩) := by
  simpa using claim_c4_closed_is_terminal ⟨⟨[], true⟩⟩ rfl rfl 2

/-- C10: each poll of `poll_next` is exactly one poll of the underlying
receiver — pure delegation with no filtering, transformation, duplication or
extra buffering — and a yielded element is removed from the channel queue, so
it is delivered at most once. -/
theorem claim_c10_pure_delegation (s : StateChanges) :
    s.poll_next = ((s.rx.poll_recv).1, ⟨(s.rx.poll_recv).2⟩) ∧
    (∀ x rest, s.rx.queue = x :: rest →
      (s.poll_next).1 = Poll.Ready (some x) ∧
      (s.poll_next).2.rx.queue = rest) := by
  refine ⟨rfl, fun x rest h => ?_⟩
  constructor <;>
    simp [StateChanges.poll_next, UnboundedReceiver.poll_recv, h]

/-- C10 witness: on a stream with one queued element, a poll yields that
element and leaves the queue empty. -/
theorem claim_c10_witness :
    ((StateChanges.mk ⟨[Except.ok Subsystem.Player], false⟩).poll_next).1 =
      Poll.Ready (some (Except.ok Subsystem.Player)) ∧
    ((StateChanges.mk ⟨[Except.ok Subsystem.Player], false⟩).poll_next).2.rx.queue = [] :=
  (claim_c10_pure_delegation ⟨⟨[Except.ok Subsystem.Player], false⟩⟩).2
    (Except.ok Subsystem.Player) [] rfl

end MpdClient
